import Mathlib

/-!
Shallow embedding of the outfit-timeline and garment-application-engine logic of
the Try-On-the-Go application (`App.tsx`, `types.ts`).

React state hooks become fields of an explicit `AppState` record; each event
handler becomes a pure function from the pre-state to the post-state.  An
asynchronous external image-synthesis call is modelled by passing the call's
outcome (`Except` error / success) as an explicit argument; each engine
operation additionally returns a `Bool` recording whether it dispatched its
external call (it is `false` exactly on the fail-fast / guard paths, where the
source returns before reaching the `try` block).

JavaScript objects used as string-keyed maps (`poseImages`) are modelled as
insertion-ordered association lists: assignment overwrites the existing key in
place or appends a fresh one at the end, `Object.values(m)[0]` is the first
value in insertion order.
-/

/-- WardrobeItem from `types.ts`: `{ id, name, url }`. -/
structure WardrobeItem where
  id : String
  name : String
  url : String
deriving Repr, DecidableEq

/-- OutfitLayer from `types.ts`: primary garment (null for the base layer),
optional multi-garment list, and the per-pose image cache. -/
structure OutfitLayer where
  garment : Option WardrobeItem
  garments : Option (List WardrobeItem)
  poseImages : List (String × String)
deriving Repr, DecidableEq

/-- The fixed pose list `POSE_INSTRUCTIONS` from `App.tsx`. -/
def POSE_INSTRUCTIONS : List String :=
  [ "Full frontal view, hands on hips"
  , "Slightly turned, 3/4 view"
  , "Side profile view"
  , "Jumping in the air, mid-action shot"
  , "Walking towards camera"
  , "Leaning against a wall" ]

/-- JavaScript object read `m[k]`: the value at the first (unique) occurrence
of key `k`, if any. -/
def lookupPose : List (String × String) → String → Option String
  | [], _ => none
  | (k0, v0) :: rest, k => if k0 = k then some v0 else lookupPose rest k

/-- JavaScript object write `m[k] = v`: overwrite the first occurrence of `k`
in place, or append `(k, v)` when `k` is absent. -/
def setPose : List (String × String) → String → String → List (String × String)
  | [], k, v => [(k, v)]
  | (k0, v0) :: rest, k, v =>
      if k0 = k then (k, v) :: rest else (k0, v0) :: setPose rest k v

/-- JavaScript `Object.values(m)[0]`: the first value in insertion order. -/
def firstPoseImage (m : List (String × String)) : Option String :=
  m.head?.map (fun p => p.2)

/-- The reactive state of `App.tsx` relevant to the timeline and the engine:
`generatedModelUrl`, `outfitHistory`, `currentOutfitIndex` (the cursor),
`isLoading` (the shared busy flag), `error`, `currentPoseIndex`
(the active pose index), `currentScene`, and the `wardrobe` collection. -/
structure AppState where
  generatedModelUrl : Option String
  outfitHistory : List OutfitLayer
  currentOutfitIndex : Nat
  isLoading : Bool
  error : Option String
  currentPoseIndex : Nat
  currentScene : String
  wardrobe : List WardrobeItem
deriving Repr, DecidableEq

/-- Modelled from the spec: the presentation-neutral error mapper
`getFriendlyErrorMessage` lives in `lib/utils`, which is not among the provided
sources; per the spec it converts any external-capability failure into a single
human-readable message derived from the failure cause and an
operation-specific fallback text.  No claim depends on the message content. -/
def getFriendlyErrorMessage (err fallback : String) : String :=
  fallback ++ ": " ++ err

/-- The `displayImageUrl` memo of `App.tsx`: the generated base-model URL when
the history is empty or the cursor is out of range, otherwise the active
layer's image at the current pose key, falling back to the first entry of that
layer's `poseImages`. -/
def displayImageUrl (s : AppState) : Option String :=
  if s.outfitHistory.isEmpty then s.generatedModelUrl
  else
    match s.outfitHistory[s.currentOutfitIndex]? with
    | none => s.generatedModelUrl
    | some currentLayer =>
      match POSE_INSTRUCTIONS[s.currentPoseIndex]? with
      | none => firstPoseImage currentLayer.poseImages
      | some poseInstruction =>
        match lookupPose currentLayer.poseImages poseInstruction with
        | some img => some img
        | none => firstPoseImage currentLayer.poseImages

/-- The `handleModelFinalized` handler: seed the timeline with the single base
layer whose only pose image is the finalized model at the default pose. -/
def handleModelFinalized (s : AppState) (url : String) : AppState :=
  { s with
    generatedModelUrl := some url
    outfitHistory :=
      [ { garment := none, garments := none
          poseImages := [(POSE_INSTRUCTIONS.headD "", url)] } ]
    currentOutfitIndex := 0 }

/-- The `handleBackToStart` handler: discard the timeline but keep the
generated base-model URL. -/
def handleBackToStart (s : AppState) : AppState :=
  { s with
    outfitHistory := []
    currentOutfitIndex := 0
    isLoading := false
    error := none
    currentPoseIndex := 0
    currentScene := "Studio" }

/-- The `handleUndo` handler: when the cursor is positive, step it back and
reset the active pose to the default. -/
def handleUndo (s : AppState) : AppState :=
  if 0 < s.currentOutfitIndex then
    { s with currentOutfitIndex := s.currentOutfitIndex - 1, currentPoseIndex := 0 }
  else s

/-- The `handleRedo` handler: when the cursor is before the last layer, step it
forward and reset the active pose to the default. -/
def handleRedo (s : AppState) : AppState :=
  if s.currentOutfitIndex < s.outfitHistory.length - 1 then
    { s with currentOutfitIndex := s.currentOutfitIndex + 1, currentPoseIndex := 0 }
  else s

/-- The `handleRemoveWardrobeItem` handler: drop every wardrobe item with the
given id. -/
def handleRemoveWardrobeItem (s : AppState) (itemId : String) : AppState :=
  { s with wardrobe := s.wardrobe.filter (fun item => item.id ≠ itemId) }

/-- The `handleRemoveLayer` handler: index 0 only sets the user-facing error;
otherwise splice the layer out (a no-op when the index is past the end, as in
`Array.prototype.splice`) and pull the cursor back when it sat at or after the
removed index. -/
def handleRemoveLayer (s : AppState) (index : Nat) : AppState :=
  if index = 0 then
    { s with error := some "Cannot remove the base model. Please start over to change the model." }
  else
    { s with
      outfitHistory := s.outfitHistory.eraseIdx index
      currentOutfitIndex :=
        if s.currentOutfitIndex ≥ index then s.currentOutfitIndex - 1
        else s.currentOutfitIndex }

/-- The wardrobe functional update inside `handleGarmentSelect`: append the
persisted item unless an item with its id is already present. -/
def addWardrobeItemIfNew (wardrobe : List WardrobeItem) (item : WardrobeItem) :
    List WardrobeItem :=
  if (wardrobe.find? (fun i => i.id = item.id)).isSome then wardrobe
  else wardrobe ++ [item]

/-- The `handleGarmentSelect` handler.  `tryOnResult` is the outcome of the
external `generateVirtualTryOnImage` call and `base64Result` the outcome of the
`fileToBase64` conversion used for wardrobe persistence.  The returned `Bool`
records whether the external call was dispatched. -/
def handleGarmentSelect (s : AppState) (garmentInfo : WardrobeItem)
    (tryOnResult : Except String String) (base64Result : Except String String) :
    AppState × Bool :=
  match displayImageUrl s with
  | none => (s, false)
  | some _ =>
    if s.isLoading then (s, false)
    else
      match tryOnResult with
      | Except.error err =>
        ({ s with
           error := some (getFriendlyErrorMessage err "Failed to apply garment")
           isLoading := false }, true)
      | Except.ok newImageUrl =>
        let currentPoseInstruction := (POSE_INSTRUCTIONS[s.currentPoseIndex]?).getD ""
        let newLayer : OutfitLayer :=
          { garment := some garmentInfo, garments := none
            poseImages := [(currentPoseInstruction, newImageUrl)] }
        let isNewItem := (s.wardrobe.find? (fun item => item.id = garmentInfo.id)).isNone
        let newWardrobe :=
          if isNewItem then
            match base64Result with
            | Except.ok base64Url =>
                addWardrobeItemIfNew s.wardrobe { garmentInfo with url := base64Url }
            | Except.error _ => s.wardrobe
          else s.wardrobe
        ({ s with
           error := none
           isLoading := false
           outfitHistory := s.outfitHistory.take (s.currentOutfitIndex + 1) ++ [newLayer]
           currentOutfitIndex := s.currentOutfitIndex + 1
           wardrobe := newWardrobe }, true)

/-- The `handleMultiGarmentSelect` handler; `items` carries the
`WardrobeItem` info of each selected garment (the files only feed the external
call, whose outcome is `result`). -/
def handleMultiGarmentSelect (s : AppState) (items : List WardrobeItem)
    (result : Except String String) : AppState × Bool :=
  match displayImageUrl s with
  | none => (s, false)
  | some _ =>
    if s.isLoading || items.isEmpty then (s, false)
    else
      match result with
      | Except.error err =>
        ({ s with
           error := some (getFriendlyErrorMessage err "Failed to apply outfit")
           isLoading := false }, true)
      | Except.ok newImageUrl =>
        let currentPoseInstruction := (POSE_INSTRUCTIONS[s.currentPoseIndex]?).getD ""
        let newLayer : OutfitLayer :=
          { garment := items.head?, garments := some items
            poseImages := [(currentPoseInstruction, newImageUrl)] }
        ({ s with
           error := none
           isLoading := false
           outfitHistory := s.outfitHistory.take (s.currentOutfitIndex + 1) ++ [newLayer]
           currentOutfitIndex := s.currentOutfitIndex + 1 }, true)

/-- The `handlePoseSelect` handler.  A cache hit switches the pose index with
no external call; a cache miss optimistically switches, dispatches the external
`generatePoseVariation` call (outcome `result`), writes the result into the
active layer on success and rolls the pose index back on failure.  When the
cursor is out of range the source dereferences an undefined layer before any
state write, observably a no-op; the model reads an empty default layer, whose
missing first pose image takes the same early return. -/
def handlePoseSelect (s : AppState) (newIndex : Nat)
    (result : Except String String) : AppState × Bool :=
  if s.isLoading || s.outfitHistory.isEmpty || newIndex = s.currentPoseIndex then
    (s, false)
  else
    let poseInstruction := (POSE_INSTRUCTIONS[newIndex]?).getD ""
    let currentLayer := (s.outfitHistory[s.currentOutfitIndex]?).getD
      { garment := none, garments := none, poseImages := [] }
    if (lookupPose currentLayer.poseImages poseInstruction).isSome then
      ({ s with currentPoseIndex := newIndex }, false)
    else
      match firstPoseImage currentLayer.poseImages with
      | none => (s, false)
      | some _ =>
        match result with
        | Except.ok newImageUrl =>
          ({ s with
             error := none
             isLoading := false
             currentPoseIndex := newIndex
             outfitHistory := s.outfitHistory.set s.currentOutfitIndex
               { currentLayer with
                 poseImages := setPose currentLayer.poseImages poseInstruction newImageUrl } },
           true)
        | Except.error err =>
          ({ s with
             error := some (getFriendlyErrorMessage err "Failed to change pose")
             isLoading := false }, true)

/-- The `handleSceneSelect` handler: on success of the external
`generateSceneVariation` call (outcome `result`), overwrite the active layer's
current-pose entry in place and record the new scene; on failure only the
error is set. -/
def handleSceneSelect (s : AppState) (scene : String)
    (result : Except String String) : AppState × Bool :=
  if s.isLoading then (s, false)
  else
    match displayImageUrl s with
    | none => (s, false)
    | some _ =>
      if scene = s.currentScene then (s, false)
      else
        match result with
        | Except.ok newImageUrl =>
          let newHistory :=
            if s.currentOutfitIndex ≥ s.outfitHistory.length then s.outfitHistory
            else
              match s.outfitHistory[s.currentOutfitIndex]? with
              | none => s.outfitHistory
              | some layer =>
                let currentPose := (POSE_INSTRUCTIONS[s.currentPoseIndex]?).getD ""
                s.outfitHistory.set s.currentOutfitIndex
                  { layer with poseImages := setPose layer.poseImages currentPose newImageUrl }
          ({ s with
             error := none
             isLoading := false
             outfitHistory := newHistory
             currentScene := scene }, true)
        | Except.error err =>
          ({ s with
             error := some (getFriendlyErrorMessage err "Failed to change scene")
             isLoading := false }, true)

/-- The timeline invariant of an active session: nonempty history and the
cursor in range. -/
def TimelineInv (s : AppState) : Prop :=
  s.outfitHistory ≠ [] ∧ s.currentOutfitIndex < s.outfitHistory.length

instance (s : AppState) : Decidable (TimelineInv s) := by
  unfold TimelineInv; infer_instance

/-- The ids of a wardrobe list are pairwise distinct. -/
def wardrobeIdsNodup (w : List WardrobeItem) : Prop :=
  (w.map (fun item => item.id)).Nodup

instance (w : List WardrobeItem) : Decidable (wardrobeIdsNodup w) := by
  unfold wardrobeIdsNodup; infer_instance

/-- The initial reactive state of `App.tsx` (each `useState` initializer). -/
def initialState : AppState :=
  { generatedModelUrl := none, outfitHistory := [], currentOutfitIndex := 0
    isLoading := false, error := none, currentPoseIndex := 0
    currentScene := "Studio", wardrobe := [] }

/-- Sample base layer used to evaluate the theorems on concrete inputs. -/
def sampleBaseLayer : OutfitLayer :=
  { garment := none, garments := none
    poseImages := [("Full frontal view, hands on hips", "baseImg")] }

/-- Sample garment used to evaluate the theorems on concrete inputs. -/
def sampleGarment : WardrobeItem := { id := "g1", name := "Shirt", url := "shirt.png" }

/-- Second sample garment. -/
def sampleGarment2 : WardrobeItem := { id := "g2", name := "Jacket", url := "jacket.png" }

/-- Sample garment layer on top of the base layer. -/
def sampleLayer1 : OutfitLayer :=
  { garment := some sampleGarment, garments := none
    poseImages := [("Full frontal view, hands on hips", "img1")] }

/-- Sample layer built from the second garment. -/
def sampleLayer2 : OutfitLayer :=
  { garment := some sampleGarment2, garments := none
    poseImages := [("Full frontal view, hands on hips", "img2")] }

/-- Sample garment layer carrying two cached poses. -/
def sampleLayerTwoPoses : OutfitLayer :=
  { garment := some sampleGarment, garments := none
    poseImages := [("Full frontal view, hands on hips", "img1")
                  , ("Slightly turned, 3/4 view", "img1turned")] }

/-- Sample active session: base layer plus one garment layer, cursor on the
garment layer. -/
def sampleState : AppState :=
  { generatedModelUrl := some "baseImg"
    outfitHistory := [sampleBaseLayer, sampleLayer1]
    currentOutfitIndex := 1, isLoading := false, error := none
    currentPoseIndex := 0, currentScene := "Studio", wardrobe := [sampleGarment] }

/-- Sample session whose cursor sits strictly before the last layer, so an
application must truncate redo-able layers. -/
def truncState : AppState :=
  { generatedModelUrl := some "baseImg"
    outfitHistory := [sampleBaseLayer, sampleLayer1, sampleLayer2]
    currentOutfitIndex := 0, isLoading := false, error := none
    currentPoseIndex := 0, currentScene := "Studio", wardrobe := [sampleGarment] }

/-- Sample session with the shared busy flag set. -/
def busyState : AppState := { sampleState with isLoading := true }

/-- Sample session whose active layer has two cached poses. -/
def cachedPoseState : AppState :=
  { generatedModelUrl := some "baseImg"
    outfitHistory := [sampleBaseLayer, sampleLayerTwoPoses]
    currentOutfitIndex := 1, isLoading := false, error := none
    currentPoseIndex := 0, currentScene := "Studio", wardrobe := [sampleGarment] }

lemma timelineInv_iff (s : AppState) :
    TimelineInv s ↔
      0 < s.outfitHistory.length ∧ s.currentOutfitIndex < s.outfitHistory.length := by
  unfold TimelineInv
  rw [← List.length_pos]

lemma lookupPose_setPose_self (m : List (String × String)) (k v : String) :
    lookupPose (setPose m k v) k = some v := by
  induction m with
  | nil => simp [setPose, lookupPose]
  | cons hd tl ih =>
    obtain ⟨k0, v0⟩ := hd
    by_cases h : k0 = k
    · simp [setPose, h, lookupPose]
    · simp [setPose, h, lookupPose, ih]

lemma lookupPose_setPose_ne (m : List (String × String)) (k v k2 : String)
    (h : k2 ≠ k) : lookupPose (setPose m k v) k2 = lookupPose m k2 := by
  induction m with
  | nil => simp [setPose, lookupPose, Ne.symm h]
  | cons hd tl ih =>
    obtain ⟨k0, v0⟩ := hd
    by_cases h0 : k0 = k
    · subst h0
      simp [setPose, lookupPose, Ne.symm h]
    · by_cases h2 : k0 = k2
      · simp [setPose, h0, lookupPose, h2, h]
      · simp [setPose, h0, lookupPose, h2, h, ih]

lemma firstPoseImage_mem (m : List (String × String)) (h : m ≠ []) :
    ∃ p ∈ m, firstPoseImage m = some p.2 := by
  cases m with
  | nil => exact absurd rfl h
  | cons hd tl => exact ⟨hd, List.mem_cons_self hd tl, rfl⟩

lemma wardrobeIdsNodup_filter (w : List WardrobeItem) (p : WardrobeItem → Bool)
    (h : wardrobeIdsNodup w) : wardrobeIdsNodup (w.filter p) :=
  List.Nodup.sublist (List.Sublist.map _ (List.filter_sublist w)) h

lemma wardrobeIdsNodup_add (w : List WardrobeItem) (item : WardrobeItem)
    (h : wardrobeIdsNodup w) : wardrobeIdsNodup (addWardrobeItemIfNew w item) := by
  unfold addWardrobeItemIfNew
  cases hf : w.find? (fun i => i.id = item.id) with
  | some x => simpa [hf] using h
  | none =>
    rw [List.find?_eq_none] at hf
    simp only [hf, Option.isSome_none, Bool.false_eq_true, if_false]
    unfold wardrobeIdsNodup at h ⊢
    rw [List.map_append, List.nodup_append]
    refine ⟨h, List.nodup_singleton _, ?_⟩
    intro a ha hb
    simp only [List.mem_map] at ha
    obtain ⟨x, hx, hxa⟩ := ha
    simp only [List.map_cons, List.map_nil, List.mem_singleton] at hb
    have := hf x hx
    simp only [decide_eq_true_eq] at this
    exact this (hxa.trans hb)

lemma inv_modelFinalized (s : AppState) (url : String) :
    TimelineInv (handleModelFinalized s url) := by
  rw [timelineInv_iff]
  unfold handleModelFinalized
  simp

lemma inv_garmentSelect (s : AppState) (info : WardrobeItem)
    (r1 r2 : Except String String) (h : TimelineInv s) :
    TimelineInv (handleGarmentSelect s info r1 r2).1 := by
  rw [timelineInv_iff] at h ⊢
  unfold handleGarmentSelect
  cases hd : displayImageUrl s with
  | none => exact h
  | some img =>
    by_cases hl : s.isLoading
    · simpa [hl] using h
    · cases r1 with
      | error e => simpa [hl] using h
      | ok url =>
        simp [hl, List.length_append, List.length_take]
        omega

lemma inv_multiGarmentSelect (s : AppState) (items : List WardrobeItem)
    (r : Except String String) (h : TimelineInv s) :
    TimelineInv (handleMultiGarmentSelect s items r).1 := by
  rw [timelineInv_iff] at h ⊢
  unfold handleMultiGarmentSelect
  cases hd : displayImageUrl s with
  | none => exact h
  | some img =>
    by_cases hl : s.isLoading
    · simpa [hl] using h
    · by_cases hi : items.isEmpty
      · simpa [hl, hi] using h
      · cases r with
        | error e => simpa [hl, hi] using h
        | ok url =>
          simp [hl, hi, List.length_append, List.length_take]
          omega

lemma inv_undo (s : AppState) (h : TimelineInv s) : TimelineInv (handleUndo s) := by
  rw [timelineInv_iff] at h ⊢
  unfold handleUndo
  split
  · simp only
    omega
  · exact h

lemma inv_redo (s : AppState) (h : TimelineInv s) : TimelineInv (handleRedo s) := by
  rw [timelineInv_iff] at h ⊢
  unfold handleRedo
  split
  · rename_i hlt
    simp only
    omega
  · exact h

lemma inv_removeLayer (s : AppState) (i : Nat) (hi : i ≠ 0) (h : TimelineInv s) :
    TimelineInv (handleRemoveLayer s i) := by
  rw [timelineInv_iff] at h ⊢
  unfold handleRemoveLayer
  by_cases h1 : i < s.outfitHistory.length <;>
    by_cases h2 : s.currentOutfitIndex ≥ i <;>
      simp [hi, h1, h2, List.length_eraseIdx] <;> omega

lemma inv_poseSelect (s : AppState) (i : Nat) (r : Except String String)
    (h : TimelineInv s) : TimelineInv (handlePoseSelect s i r).1 := by
  rw [timelineInv_iff] at h ⊢
  unfold handlePoseSelect
  dsimp only
  split
  · exact h
  · split
    · exact h
    · split
      · exact h
      · cases r with
        | ok url => simpa [List.length_set] using h
        | error e => exact h

lemma inv_sceneSelect (s : AppState) (scene : String) (r : Except String String)
    (h : TimelineInv s) : TimelineInv (handleSceneSelect s scene r).1 := by
  rw [timelineInv_iff] at h ⊢
  unfold handleSceneSelect
  dsimp only
  split
  · exact h
  · split
    · exact h
    · split
      · exact h
      · cases r with
        | error e => exact h
        | ok url =>
          dsimp only
          split
          · exact h
          · split
            · exact h
            · simpa [List.length_set] using h

/-- C1: once the base layer is created the timeline invariant
`history ≠ [] ∧ cursor < history.length` holds (`handleModelFinalized`
establishes it) and every operation — garment application (single and multi),
undo, redo, removal of a non-zero layer index, pose change, and scene
change — preserves it. -/
theorem timeline_invariant_preserved (s : AppState) (h : TimelineInv s) :
    (∀ url, TimelineInv (handleModelFinalized s url)) ∧
    (∀ info r1 r2, TimelineInv (handleGarmentSelect s info r1 r2).1) ∧
    (∀ items r, TimelineInv (handleMultiGarmentSelect s items r).1) ∧
    TimelineInv (handleUndo s) ∧
    TimelineInv (handleRedo s) ∧
    (∀ i, i ≠ 0 → TimelineInv (handleRemoveLayer s i)) ∧
    (∀ i r, TimelineInv (handlePoseSelect s i r).1) ∧
    (∀ scene r, TimelineInv (handleSceneSelect s scene r).1) :=
  ⟨fun url => inv_modelFinalized s url,
   fun info r1 r2 => inv_garmentSelect s info r1 r2 h,
   fun items r => inv_multiGarmentSelect s items r h,
   inv_undo s h,
   inv_redo s h,
   fun i hi => inv_removeLayer s i hi h,
   fun i r => inv_poseSelect s i r h,
   fun scene r => inv_sceneSelect s scene r h⟩

/-- C1 witness: the invariant holds of the sample active state and is
preserved there by an undo. -/
theorem timeline_invariant_preserved_witness :
    TimelineInv sampleState ∧ TimelineInv (handleUndo sampleState) :=
  ⟨by decide, (timeline_invariant_preserved sampleState (by decide)).2.2.2.1⟩

/-- C5: while the shared busy flag `isLoading` is set, each of the four engine
operations returns the state unchanged and dispatches no external call. -/
theorem busy_flag_single_flight (s : AppState) (h : s.isLoading = true) :
    (∀ info r1 r2, handleGarmentSelect s info r1 r2 = (s, false)) ∧
    (∀ items r, handleMultiGarmentSelect s items r = (s, false)) ∧
    (∀ i r, handlePoseSelect s i r = (s, false)) ∧
    (∀ scene r, handleSceneSelect s scene r = (s, false)) := by
  refine ⟨fun info r1 r2 => ?_, fun items r => ?_, fun i r => ?_, fun scene r => ?_⟩
  · unfold handleGarmentSelect
    cases displayImageUrl s <;> simp [h]
  · unfold handleMultiGarmentSelect
    cases displayImageUrl s <;> simp [h]
  · unfold handlePoseSelect
    simp [h]
  · unfold handleSceneSelect
    simp [h]

/-- C5 witness: on the busy sample state a garment application, a pose change
and a scene change are all no-ops with no external call. -/
theorem busy_flag_single_flight_witness :
    handleGarmentSelect busyState sampleGarment2 (Except.ok "x") (Except.ok "y") =
      (busyState, false) ∧
    handlePoseSelect busyState 1 (Except.ok "x") = (busyState, false) ∧
    handleSceneSelect busyState "Beach" (Except.ok "x") = (busyState, false) :=
  ⟨(busy_flag_single_flight busyState (by decide)).1 sampleGarment2
      (Except.ok "x") (Except.ok "y"),
   (busy_flag_single_flight busyState (by decide)).2.2.1 1 (Except.ok "x"),
   (busy_flag_single_flight busyState (by decide)).2.2.2 "Beach" (Except.ok "x")⟩

/-- C6: from any active state with a positive cursor, an undo followed by a
redo restores the cursor and leaves the history untouched. -/
theorem undo_redo_roundtrip (s : AppState) (hpos : 0 < s.currentOutfitIndex)
    (hlt : s.currentOutfitIndex < s.outfitHistory.length) :
    (handleRedo (handleUndo s)).currentOutfitIndex = s.currentOutfitIndex ∧
    (handleRedo (handleUndo s)).outfitHistory = s.outfitHistory := by
  unfold handleUndo handleRedo
  have hstep : s.currentOutfitIndex - 1 < s.outfitHistory.length - 1 := by omega
  simp [hpos, hstep]
  omega

/-- C6 witness: the undo-redo round trip on the sample state with cursor 1. -/
theorem undo_redo_roundtrip_witness :
    (handleRedo (handleUndo sampleState)).currentOutfitIndex =
      sampleState.currentOutfitIndex ∧
    (handleRedo (handleUndo sampleState)).outfitHistory = sampleState.outfitHistory :=
  undo_redo_roundtrip sampleState (by decide) (by decide)

/-- C7: removing layer 0 leaves the history and the cursor unchanged and sets
exactly the user-facing cannot-remove-base error message. -/
theorem removeLayer_base_guard (s : AppState) :
    (handleRemoveLayer s 0).outfitHistory = s.outfitHistory ∧
    (handleRemoveLayer s 0).currentOutfitIndex = s.currentOutfitIndex ∧
    (handleRemoveLayer s 0).error =
      some "Cannot remove the base model. Please start over to change the model." := by
  unfold handleRemoveLayer
  simp

/-- C2: a successful garment application (single or multi) from cursor `k`
with `history.length > k+1` truncates the history to its first `k+1` layers,
appends the one new layer (total length `k+2`), and sets the cursor to
`k+1`. -/
theorem append_truncate_law (s : AppState) (img url : String)
    (hload : s.isLoading = false) (himg : displayImageUrl s = some img)
    (hlen : s.currentOutfitIndex + 1 < s.outfitHistory.length) :
    (∀ info b64,
      (handleGarmentSelect s info (Except.ok url) b64).1.outfitHistory =
          s.outfitHistory.take (s.currentOutfitIndex + 1) ++
            [{ garment := some info, garments := none
               poseImages := [((POSE_INSTRUCTIONS[s.currentPoseIndex]?).getD "", url)] }] ∧
        (handleGarmentSelect s info (Except.ok url) b64).1.outfitHistory.length =
          s.currentOutfitIndex + 2 ∧
        (handleGarmentSelect s info (Except.ok url) b64).1.currentOutfitIndex =
          s.currentOutfitIndex + 1) ∧
    (∀ items, items ≠ [] →
      (handleMultiGarmentSelect s items (Except.ok url)).1.outfitHistory =
          s.outfitHistory.take (s.currentOutfitIndex + 1) ++
            [{ garment := items.head?, garments := some items
               poseImages := [((POSE_INSTRUCTIONS[s.currentPoseIndex]?).getD "", url)] }] ∧
        (handleMultiGarmentSelect s items (Except.ok url)).1.outfitHistory.length =
          s.currentOutfitIndex + 2 ∧
        (handleMultiGarmentSelect s items (Except.ok url)).1.currentOutfitIndex =
          s.currentOutfitIndex + 1) := by
  constructor
  · intro info b64
    unfold handleGarmentSelect
    rw [himg]
    simp [hload, List.length_append, List.length_take]
    omega
  · intro items hne
    unfold handleMultiGarmentSelect
    rw [himg]
    simp [hload, List.isEmpty_iff, hne, List.length_append, List.length_take]
    omega

/-- C2 witness: applying a garment on the sample state whose cursor sits two
layers before the end yields history of length cursor+2 with cursor moved to
cursor+1. -/
theorem append_truncate_law_witness :
    (handleGarmentSelect truncState sampleGarment2 (Except.ok "newImg")
        (Except.ok "b64")).1.outfitHistory.length =
      truncState.currentOutfitIndex + 2 ∧
    (handleGarmentSelect truncState sampleGarment2 (Except.ok "newImg")
        (Except.ok "b64")).1.currentOutfitIndex =
      truncState.currentOutfitIndex + 1 :=
  ⟨((append_truncate_law truncState "baseImg" "newImg" (by decide) (by decide)
      (by decide)).1 sampleGarment2 (Except.ok "b64")).2.1,
   ((append_truncate_law truncState "baseImg" "newImg" (by decide) (by decide)
      (by decide)).1 sampleGarment2 (Except.ok "b64")).2.2⟩

/-- C3 counterexample: after `handleBackToStart` from a finalized base model
the history is empty, yet the displayed-image derivation returns the retained
base-model URL — not null as the claim states. -/
theorem displayImageUrl_empty_counterexample :
    (handleBackToStart (handleModelFinalized initialState "model.png")).outfitHistory
        = [] ∧
    displayImageUrl (handleBackToStart (handleModelFinalized initialState "model.png"))
        = some "model.png" ∧
    displayImageUrl (handleBackToStart (handleModelFinalized initialState "model.png"))
        ≠ none := by
  refine ⟨rfl, rfl, by decide⟩

/-- C3 (amended): the displayed-image derivation returns the active layer's
entry at the current pose key when that entry exists; when the current pose
has no entry it falls back to the first entry of the active layer's pose
cache — one of that layer's existing entries whenever the cache is
nonempty; and when the history is empty it returns the generated base-model
URL, which may be non-null. -/
theorem displayImageUrl_derivation (s : AppState) :
    (s.outfitHistory = [] → displayImageUrl s = s.generatedModelUrl) ∧
    (∀ layer key img, s.outfitHistory[s.currentOutfitIndex]? = some layer →
      POSE_INSTRUCTIONS[s.currentPoseIndex]? = some key →
      lookupPose layer.poseImages key = some img →
      displayImageUrl s = some img) ∧
    (∀ layer key, s.outfitHistory[s.currentOutfitIndex]? = some layer →
      POSE_INSTRUCTIONS[s.currentPoseIndex]? = some key →
      lookupPose layer.poseImages key = none →
      displayImageUrl s = firstPoseImage layer.poseImages ∧
      (layer.poseImages ≠ [] →
        ∃ p ∈ layer.poseImages, displayImageUrl s = some p.2)) := by
  refine ⟨?_, ?_, ?_⟩
  · intro he
    unfold displayImageUrl
    simp [he]
  · intro layer key img hl hk hlook
    have hne : s.outfitHistory.isEmpty = false := by
      cases hh : s.outfitHistory with
      | nil => rw [hh] at hl; simp at hl
      | cons a tl => rfl
    unfold displayImageUrl
    simp [hne, hl, hk, hlook]
  · intro layer key hl hk hlook
    have hne : s.outfitHistory.isEmpty = false := by
      cases hh : s.outfitHistory with
      | nil => rw [hh] at hl; simp at hl
      | cons a tl => rfl
    have hd : displayImageUrl s = firstPoseImage layer.poseImages := by
      unfold displayImageUrl
      simp [hne, hl, hk, hlook]
    refine ⟨hd, fun hpne => ?_⟩
    obtain ⟨p, hp, hfirst⟩ := firstPoseImage_mem layer.poseImages hpne
    exact ⟨p, hp, hd.trans hfirst⟩

/-- C3 amended-theorem witness: on the sample state the active layer's cached
entry at the current pose is the displayed image. -/
theorem displayImageUrl_derivation_witness :
    displayImageUrl sampleState = some "img1" :=
  (displayImageUrl_derivation sampleState).2.1 sampleLayer1
    "Full frontal view, hands on hips" "img1" (by decide) (by decide) (by decide)

/-- C4: whenever the pose-variation call dispatched by a pose change fails,
the optimistic pose switch is rolled back — the active pose index afterwards
equals its value before the call — and the history is unchanged. -/
theorem changePose_rollback (s : AppState) (i : Nat) (e : String)
    (hcall : (handlePoseSelect s i (Except.error e)).2 = true) :
    (handlePoseSelect s i (Except.error e)).1.currentPoseIndex = s.currentPoseIndex ∧
    (handlePoseSelect s i (Except.error e)).1.outfitHistory = s.outfitHistory := by
  revert hcall
  unfold handlePoseSelect
  dsimp only
  split
  · intro hcall; cases hcall
  · split
    · intro hcall; cases hcall
    · split
      · intro hcall; cases hcall
      · intro _; exact ⟨rfl, rfl⟩

/-- C4 witness: the failed pose change on the sample state dispatched its
external call yet left pose index and history as before. -/
theorem changePose_rollback_witness :
    (handlePoseSelect sampleState 1 (Except.error "boom")).1.currentPoseIndex =
      sampleState.currentPoseIndex ∧
    (handlePoseSelect sampleState 1 (Except.error "boom")).1.outfitHistory =
      sampleState.outfitHistory :=
  changePose_rollback sampleState 1 "boom" (by decide)

/-- C9: a pose change to an already-cached pose dispatches no external call,
changes nothing but the active pose index, and displays exactly the cached
entry for that pose. -/
theorem changePose_cache_hit (s : AppState) (i : Nat) (r : Except String String)
    (layer : OutfitLayer) (key img : String)
    (hload : s.isLoading = false)
    (hlayer : s.outfitHistory[s.currentOutfitIndex]? = some layer)
    (hkey : POSE_INSTRUCTIONS[i]? = some key)
    (hcache : lookupPose layer.poseImages key = some img) :
    handlePoseSelect s i r = ({ s with currentPoseIndex := i }, false) ∧
    displayImageUrl (handlePoseSelect s i r).1 = some img := by
  have hne : s.outfitHistory.isEmpty = false := by
    cases hh : s.outfitHistory with
    | nil => rw [hh] at hlayer; simp at hlayer
    | cons a tl => rfl
  have hmain : handlePoseSelect s i r = ({ s with currentPoseIndex := i }, false) := by
    unfold handlePoseSelect
    by_cases hi : i = s.currentPoseIndex
    · subst hi
      simp
    · simp [hload, hne, hi, hlayer, hkey, hcache]
  refine ⟨hmain, ?_⟩
  rw [hmain]
  by_cases hi : i = s.currentPoseIndex
  · subst hi
    unfold displayImageUrl
    simp [hne, hlayer, hkey, hcache]
  · unfold displayImageUrl
    simp [hne, hlayer, hkey, hcache]

/-- C9 witness: switching the sample two-pose state to its cached second pose
is the pure index switch displaying the cached render. -/
theorem changePose_cache_hit_witness :
    handlePoseSelect cachedPoseState 1 (Except.error "ignored") =
      ({ cachedPoseState with currentPoseIndex := 1 }, false) ∧
    displayImageUrl (handlePoseSelect cachedPoseState 1 (Except.error "ignored")).1 =
      some "img1turned" :=
  changePose_cache_hit cachedPoseState 1 (Except.error "ignored")
    sampleLayerTwoPoses "Slightly turned, 3/4 view" "img1turned"
    (by decide) (by decide) (by decide) (by decide)

/-- C10: pairwise-distinct wardrobe ids are preserved by the wardrobe
mutations: the auto-registration inside a garment application (guarded both
before and inside the functional update) and the removal filter. -/
theorem wardrobe_ids_distinct_preserved (s : AppState) (h : wardrobeIdsNodup s.wardrobe) :
    (∀ info r1 r2, wardrobeIdsNodup (handleGarmentSelect s info r1 r2).1.wardrobe) ∧
    (∀ itemId, wardrobeIdsNodup (handleRemoveWardrobeItem s itemId).wardrobe) := by
  constructor
  · intro info r1 r2
    unfold handleGarmentSelect
    cases displayImageUrl s with
    | none => exact h
    | some img =>
      by_cases hl : s.isLoading
      · simpa [hl] using h
      · cases r1 with
        | error e => simpa [hl] using h
        | ok url =>
          dsimp only
          rw [if_neg hl]
          dsimp only
          split
          · cases r2 with
            | ok b64 => exact wardrobeIdsNodup_add s.wardrobe _ h
            | error e2 => exact h
          · exact h
  · intro itemId
    exact wardrobeIdsNodup_filter s.wardrobe _ h

/-- C10 witness: the sample wardrobe has distinct ids, and applying a new
garment with successful persistence keeps them distinct. -/
theorem wardrobe_ids_distinct_preserved_witness :
    wardrobeIdsNodup (handleGarmentSelect sampleState sampleGarment2
      (Except.ok "img2") (Except.ok "b64")).1.wardrobe :=
  (wardrobe_ids_distinct_preserved sampleState (by decide)).1 sampleGarment2
    (Except.ok "img2") (Except.ok "b64")

/-- C8: a successful scene change keeps the history length, the cursor, the
active pose index and every other layer unchanged, records the new scene, and
rewrites only the active layer's current-pose entry (all its other pose
entries keep their values, and the current-pose entry becomes the result). -/
theorem sceneChange_in_place (s : AppState) (scene url img key : String)
    (layer : OutfitLayer)
    (hload : s.isLoading = false)
    (himg : displayImageUrl s = some img)
    (hne : scene ≠ s.currentScene)
    (hlayer : s.outfitHistory[s.currentOutfitIndex]? = some layer)
    (hkey : POSE_INSTRUCTIONS[s.currentPoseIndex]? = some key) :
    (handleSceneSelect s scene (Except.ok url)).1.outfitHistory.length =
        s.outfitHistory.length ∧
    (handleSceneSelect s scene (Except.ok url)).1.currentOutfitIndex =
        s.currentOutfitIndex ∧
    (handleSceneSelect s scene (Except.ok url)).1.currentPoseIndex =
        s.currentPoseIndex ∧
    (handleSceneSelect s scene (Except.ok url)).1.currentScene = scene ∧
    (∀ j, j ≠ s.currentOutfitIndex →
      (handleSceneSelect s scene (Except.ok url)).1.outfitHistory[j]? =
        s.outfitHistory[j]?) ∧
    (handleSceneSelect s scene (Except.ok url)).1.outfitHistory[s.currentOutfitIndex]? =
        some { layer with poseImages := setPose layer.poseImages key url } ∧
    lookupPose (setPose layer.poseImages key url) key = some url ∧
    (∀ k2, k2 ≠ key → lookupPose (setPose layer.poseImages key url) k2 =
        lookupPose layer.poseImages k2) := by
  have hlt : s.currentOutfitIndex < s.outfitHistory.length := by
    by_contra hge
    rw [List.getElem?_eq_none (Nat.le_of_not_lt hge)] at hlayer
    cases hlayer
  have hload2 : ¬(s.isLoading = true) := by simp [hload]
  have hge2 : ¬(s.currentOutfitIndex ≥ s.outfitHistory.length) := Nat.not_le.mpr hlt
  have hmain : handleSceneSelect s scene (Except.ok url) =
      ({ s with
         error := none
         isLoading := false
         outfitHistory := s.outfitHistory.set s.currentOutfitIndex
           { layer with poseImages := setPose layer.poseImages key url }
         currentScene := scene }, true) := by
    unfold handleSceneSelect
    rw [if_neg hload2, himg]
    dsimp only
    rw [if_neg hne]
    rw [if_neg hge2, hlayer, hkey]
    rfl
  rw [hmain]
  refine ⟨by simp [List.length_set], rfl, rfl, rfl, ?_, ?_,
    lookupPose_setPose_self layer.poseImages key url,
    fun k2 hk2 => lookupPose_setPose_ne layer.poseImages key url k2 hk2⟩
  · intro j hj
    exact List.getElem?_set_ne (Ne.symm hj)
  · exact List.getElem?_set_self hlt

/-- C8 witness: changing the sample state's scene to Beach records the scene,
keeps the history length, and overwrites the active layer's current-pose entry
while every other pose entry keeps its value. -/
theorem sceneChange_in_place_witness :
    (handleSceneSelect sampleState "Beach" (Except.ok "sceneImg")).1.currentScene =
      "Beach" ∧
    (handleSceneSelect sampleState "Beach" (Except.ok "sceneImg")).1.outfitHistory.length =
      sampleState.outfitHistory.length :=
  ⟨(sceneChange_in_place sampleState "Beach" "sceneImg" "img1"
      "Full frontal view, hands on hips" sampleLayer1
      (by decide) (by decide) (by decide) (by decide) (by decide)).2.2.2.1,
   (sceneChange_in_place sampleState "Beach" "sceneImg" "img1"
      "Full frontal view, hands on hips" sampleLayer1
      (by decide) (by decide) (by decide) (by decide) (by decide)).1⟩
